import Mathlib

/-!
Shallow embedding of the credential-based registration and login flow of
FrontendForge_Sosial.

Source files embedded:
* the registration endpoint (`POST /api/register`);
* the NextAuth credentials route (`authorize`, `callbacks.jwt`, `callbacks.session`);
* the client registration form flow (`onSubmit` in the register page).

JavaScript conventions used throughout the embedding:
* a missing or `undefined` string field is modelled as the empty string `""`
  wherever the source only ever tests it for truthiness (`!email`), since in
  JavaScript both `undefined` and `""` are falsy there;
* a field that the source distinguishes between `null`/`undefined` and a real
  string (such as `displayName`, consumed with `??`, and `passwordHash`,
  tested with `!user?.passwordHash`) is modelled as `Option String`;
* JavaScript truthiness of a string is `s ≠ ""`.
-/

/-- A persisted user record, as created by `prisma.user.create` in the
registration endpoint: `id`, unique `email`, unique `username`, optional
`displayName`, and `passwordHash` (optional at the type level because
`authorize` guards against accounts that lack a stored hash). -/
structure User where
  id : String
  email : String
  username : String
  displayName : Option String
  passwordHash : Option String
deriving DecidableEq, Repr

/-- The user store: the rows of the `user` table, in insertion order. -/
abbrev Store := List User

/-- Modelled from the spec: the external password hasher (`bcrypt.hash` from
the bcryptjs collaborator, §4.1 Password Hasher). The model embeds the cost
factor in the produced hash, is injective in the plaintext, and never produces
an empty string, mirroring the shape of a real bcrypt digest. -/
def bcryptHash (plaintext : String) (cost : Nat) : String :=
  "$2b$" ++ toString cost ++ "$" ++ plaintext

/-- Modelled from the spec: the external verifier (`bcrypt.compare`). It
accepts exactly the hash that `bcryptHash` produces at the cost the code uses
(12), and returns `false` — never throws — on any malformed stored hash,
including the empty string. -/
def bcryptCompare (plaintext stored : String) : Bool :=
  stored == bcryptHash plaintext 12

/-- Modelled from the spec: the storage-assigned unique id for a newly
inserted row (the data model gives each user a unique id, created implicitly
at registration). The model derives it from the current row count, so it is
fresh and never empty. -/
def freshId (store : Store) : String :=
  "u" ++ toString store.length

/-- The minimal identity object `authorize` returns on success:
`{ id, name, email }` and nothing else — the structure has no field for the
password hash or any other stored attribute. -/
structure Identity where
  id : String
  name : String
  email : String
deriving DecidableEq, Repr

/-- `prisma.user.findUnique({ where: { email } })`: first row whose email
matches (unique in any state the endpoint itself produces). -/
def findUniqueByEmail (store : Store) (email : String) : Option User :=
  store.find? (fun u => u.email == email)

/-- `authorize(credentials)` of the NextAuth credentials provider:
guard on truthiness of email and password, look the user up by email, reject
when the stored `passwordHash` is falsy (absent or empty), compare the
password with `bcrypt.compare`, and on success return the minimal identity
with `name = user.displayName ?? user.username`. -/
def authorize (store : Store) (email password : String) : Option Identity :=
  if email == "" || password == "" then none
  else
    match findUniqueByEmail store email with
    | none => none
    | some user =>
      match user.passwordHash with
      | none => none
      | some h =>
        if h == "" then none
        else if bcryptCompare password h then
          some { id := user.id, name := user.displayName.getD user.username, email := user.email }
        else none

/-- The JSON body of a `POST /api/register` request as destructured by the
endpoint: `{ email, username, password, displayName? }`. The first three are
only ever tested for truthiness, so an absent field is modelled as `""`;
`displayName` is stored verbatim (and may be absent), so it stays optional. -/
structure RegisterRequest where
  email : String
  username : String
  password : String
  displayName : Option String
deriving DecidableEq, Repr

/-- The response of the registration endpoint: `201 {user:{id,email,username}}`,
`400 {error}` for missing fields, `409 {error}` for duplicates. (The `500`
catch-all arises only from external collaborator exceptions, which the pure
embedding cannot raise.) -/
inductive RegisterResult where
  | created (id email username : String)
  | validationError (msg : String)
  | conflictError (msg : String)
deriving DecidableEq, Repr

/-- HTTP status code of a registration response. -/
def RegisterResult.statusCode : RegisterResult → Nat
  | .created _ _ _ => 201
  | .validationError _ => 400
  | .conflictError _ => 409

/-- A storage operation the endpoint may perform, in the order the code
issues them: the uniqueness pre-read (`prisma.user.findFirst`) and the insert
(`prisma.user.create`). -/
inductive StoreOp where
  | findFirst
  | create
deriving DecidableEq, Repr

/-- The uniqueness pre-read of the endpoint:
`prisma.user.findFirst({ where: { OR: [{email}, {username}] } })`. -/
def findByEmailOrUsername (store : Store) (email username : String) : Option User :=
  store.find? (fun u => u.email == email || u.username == username)

/-- The row `prisma.user.create` builds from a request:
`{ email, username, passwordHash, displayName }` with a storage-assigned id. -/
def mkUser (store : Store) (req : RegisterRequest) : User :=
  { id := freshId store
    email := req.email
    username := req.username
    displayName := req.displayName
    passwordHash := some (bcryptHash req.password 12) }

/-- `POST /api/register`: validate truthiness of email/username/password
(400 on failure, before touching storage), pre-read uniqueness by email OR
username (409 when a row exists), hash the password at cost 12, insert the
row, and answer 201 with `{id, email, username}`. Returns the response, the
resulting store, and the trace of storage operations performed. -/
def POST (store : Store) (req : RegisterRequest) :
    RegisterResult × Store × List StoreOp :=
  if req.email == "" || req.username == "" || req.password == "" then
    (.validationError "Mangler felter", store, [])
  else
    match findByEmailOrUsername store req.email req.username with
    | some _ => (.conflictError "bruker finnes allerede", store, [.findFirst])
    | none =>
      (.created (freshId store) req.email req.username,
       store ++ [mkUser store req], [.findFirst, .create])

/-- A NextAuth JWT: the `userId` claim the `jwt` callback manages, plus all
other claims of the token, which the callback never touches. -/
structure Token where
  userId : Option String
  claims : List (String × String)
deriving DecidableEq, Repr

/-- The `jwt` callback: `if (user) token.userId = user.id; return token`.
`user` is the identity `authorize` just produced at login (an object, hence
truthy whenever present) and is absent on token refresh. -/
def jwtCallback (token : Token) (user : Option Identity) : Token :=
  match user with
  | some u => { token with userId := some u.id }
  | none => token

/-- The `user` sub-object of a session view. The code only ever writes `id`;
`name` and `email` stand for the fields NextAuth itself may have populated. -/
structure SessionUser where
  id : Option String
  name : Option String
  email : Option String
deriving DecidableEq, Repr

/-- A session view: the `user` sub-object (possibly absent before the
callback runs) and the rest of the session object (expiry). -/
structure Session where
  user : Option SessionUser
  expires : String
deriving DecidableEq, Repr

/-- The `session` callback:
`if (!session.user) session.user = {}` then
`if (token?.userId) session.user.id = token.userId`. The second guard is a
JavaScript truthiness test, so an empty-string `userId` is skipped. -/
def sessionCallback (session : Session) (token : Token) : Session :=
  let su := session.user.getD { id := none, name := none, email := none }
  match token.userId with
  | some uid =>
    if uid == "" then { session with user := some su }
    else { session with user := some { su with id := some uid } }
  | none => { session with user := some su }


/-- The client-side timeout: `setTimeout(() => controller.abort(), 10000)`. -/
def timeoutMs : Nat := 10000

/-- How the registration fetch can end, from the client's point of view:
a response with a status code, or a thrown error carrying its `name`
(`"AbortError"` when the abort controller fired at the timeout). -/
inductive FetchEnd where
  | ok (status : Nat) (errBody : Option String)
  | thrown (name : String)
deriving DecidableEq, Repr

/-- Result of `signIn("credentials", { ..., redirect: false })`:
`{ error }` is set on failure. -/
structure SignInResult where
  error : Option String
deriving DecidableEq, Repr

/-- The UI state `onSubmit` leaves behind: the `error` message state, the
`loading` flag, whether `signIn` was invoked at all, and the route passed to
`router.push` (if any). -/
structure SubmitOutcome where
  error : String
  loading : Bool
  signInAttempted : Bool
  navigatedTo : Option String
deriving DecidableEq, Repr

/-- `res.ok` of the Fetch API: status in the 2xx range. -/
def fetchOk (status : Nat) : Bool :=
  200 ≤ status && status ≤ 299

/-- The body of `onSubmit` on the register page, as a function of how the
registration fetch ends and of the (lazily consulted) sign-in result:
map non-ok statuses to their messages and stop; on a thrown error distinguish
`AbortError` (timeout message) from everything else (network message); on
success call `signIn`, surface its error or navigate to `/profile`. The
`finally` block resets `loading` on every path. -/
def onSubmit (fetch : FetchEnd) (signInRes : SignInResult) : SubmitOutcome :=
  match fetch with
  | .thrown n =>
    { error := if n == "AbortError" then "Tidsavbrudd – prøv igjen"
               else "Nettverksfeil – sjekk tilkoblingen"
      loading := false, signInAttempted := false, navigatedTo := none }
  | .ok status errBody =>
    if fetchOk status then
      match signInRes.error with
      | some _ =>
        { error := "Feil e‑post/passord", loading := false
          signInAttempted := true, navigatedTo := none }
      | none =>
        { error := "", loading := false
          signInAttempted := true, navigatedTo := some "/profile" }
    else
      { error :=
          if status == 409 then "Bruker finnes allerede"
          else if status == 400 then
            match errBody with
            | some m => if m == "" then "Mangler felter" else m
            | none => "Mangler felter"
          else "Serverfeil – prøv igjen"
        loading := false, signInAttempted := false, navigatedTo := none }

/-- Two registration requests racing: the schedule in which both perform
their validation and uniqueness pre-read against the same initial store
before either inserts — the interleaving the endpoint's read-then-insert
structure admits, since nothing ties the `findFirst` and the `create` of one
request together atomically. Each request inserts exactly when its own
pre-read (against the initial store) saw no conflict. -/
def interleavedRegister2 (store : Store) (r1 r2 : RegisterRequest) :
    RegisterResult × RegisterResult × Store :=
  if r1.email == "" || r1.username == "" || r1.password == "" then
    let (res2, store2, _) := POST store r2
    (.validationError "Mangler felter", res2, store2)
  else if r2.email == "" || r2.username == "" || r2.password == "" then
    let (res1, store1, _) := POST store r1
    (res1, .validationError "Mangler felter", store1)
  else
    match findByEmailOrUsername store r1.email r1.username,
          findByEmailOrUsername store r2.email r2.username with
    | some _, some _ => (.conflictError "bruker finnes allerede",
                         .conflictError "bruker finnes allerede", store)
    | some _, none => (.conflictError "bruker finnes allerede",
                       .created (freshId store) r2.email r2.username,
                       store ++ [mkUser store r2])
    | none, some _ => (.created (freshId store) r1.email r1.username,
                       .conflictError "bruker finnes allerede",
                       store ++ [mkUser store r1])
    | none, none =>
      let store1 := store ++ [mkUser store r1]
      (.created (freshId store) r1.email r1.username,
       .created (freshId store1) r2.email r2.username,
       store1 ++ [mkUser store1 r2])

/-- Number of rows in the store holding a given email. -/
def countEmail (store : Store) (email : String) : Nat :=
  (store.filter (fun u => u.email == email)).length

/-! ### Helper lemmas -/

theorem bcryptHash_ne_empty (p : String) (c : Nat) : bcryptHash p c ≠ "" := by
  intro h
  have h2 := congrArg String.length h
  unfold bcryptHash at h2
  rw [String.length_append, String.length_append, String.length_append] at h2
  have h3 : ("$2b$" : String).length = 4 := by decide
  have h4 : ("" : String).length = 0 := by decide
  rw [h3, h4] at h2
  omega

theorem freshId_ne_empty (store : Store) : freshId store ≠ "" := by
  intro h
  have h2 := congrArg String.length h
  unfold freshId at h2
  rw [String.length_append] at h2
  have h3 : ("u" : String).length = 1 := by decide
  have h4 : ("" : String).length = 0 := by decide
  rw [h3, h4] at h2
  omega

theorem bcryptCompare_empty_hash (p : String) : bcryptCompare p "" = false := by
  unfold bcryptCompare
  exact beq_eq_false_iff_ne.mpr fun h => bcryptHash_ne_empty p 12 h.symm

theorem bcryptCompare_roundtrip (p : String) : bcryptCompare p (bcryptHash p 12) = true :=
  beq_self_eq_true (bcryptHash p 12)

/-! ### C7 — the `jwt` callback -/

/-- C7: when `authorize` just produced an identity (the `user` argument is
present), the `jwt` callback returns the input token with its `userId` claim
set to that identity's id and everything else unchanged; when `user` is
absent, it returns the input token entirely unchanged. -/
theorem jwt_callback_spec (token : Token) (user : Option Identity) :
    (∀ u, user = some u →
      jwtCallback token user = { token with userId := some u.id }) ∧
    (user = none → jwtCallback token user = token) := by
  constructor
  · intro u hu
    subst hu
    rfl
  · intro h
    subst h
    rfl

/-- Witness for `jwt_callback_spec` at concrete tokens. -/
theorem jwt_callback_spec_witness :
    jwtCallback ⟨none, [("iat", "1")]⟩ (some ⟨"u0", "alice", "a@x.com"⟩) =
      ⟨some "u0", [("iat", "1")]⟩ ∧
    jwtCallback ⟨some "u9", [("iat", "1")]⟩ none = ⟨some "u9", [("iat", "1")]⟩ :=
  ⟨(jwt_callback_spec ⟨none, [("iat", "1")]⟩ (some ⟨"u0", "alice", "a@x.com"⟩)).1
      ⟨"u0", "alice", "a@x.com"⟩ rfl,
   (jwt_callback_spec ⟨some "u9", [("iat", "1")]⟩ none).2 rfl⟩

/-! ### C8 — the `session` callback -/

/-- A session view with no user sub-object yet. -/
def sessNoUser : Session := { user := none, expires := "2026-01-01" }

/-- A token whose `userId` claim is present but holds the empty string. -/
def tokEmptyUid : Token := { userId := some "", claims := [] }

/-- C8 counterexample: the claim promises `session.user.id` equals the
token's `userId` whenever the token carries one, but `if (token?.userId)` is
a JavaScript truthiness test, so a carried-but-empty `userId` is skipped:
the returned session's user has no id at all. -/
theorem session_callback_empty_userId_cex :
    tokEmptyUid.userId = some "" ∧
    ((sessionCallback sessNoUser tokEmptyUid).user.bind SessionUser.id) ≠ some "" := by
  constructor
  · rfl
  · decide

/-- C8 (amended): the returned session always has a user sub-object, and
whenever the token carries a non-empty `userId` claim the returned session's
`user.id` equals that `userId` — in particular for every token produced by a
successful login, whose `userId` is a storage-assigned (non-empty) id. -/
theorem session_callback_spec (session : Session) (token : Token) :
    (sessionCallback session token).user.isSome = true ∧
    (∀ uid, token.userId = some uid → uid ≠ "" →
      ((sessionCallback session token).user.bind SessionUser.id) = some uid) := by
  constructor
  · unfold sessionCallback
    rcases h : token.userId with _ | uid
    · simp
    · by_cases he : uid == ""
      · simp [he]
      · simp [he]
  · intro uid huid hne
    unfold sessionCallback
    rw [huid]
    have : (uid == "") = false := beq_eq_false_iff_ne.mpr hne
    simp [this]

/-- Witness for `session_callback_spec` at a concrete session and token. -/
theorem session_callback_spec_witness :
    ((sessionCallback sessNoUser ⟨some "u0", []⟩).user.bind SessionUser.id) = some "u0" :=
  (session_callback_spec sessNoUser ⟨some "u0", []⟩).2 "u0" rfl (by decide)

/-! ### C3 — rejection indistinguishability of `authorize` -/

/-- The three rejection causes the claim enumerates: no user exists for the
email; the user exists but has no stored password hash (absent, or empty and
hence falsy); or the password does not verify against the stored hash. -/
def rejectionCause (store : Store) (email password : String) : Prop :=
  findUniqueByEmail store email = none ∨
  (∃ u, findUniqueByEmail store email = some u ∧
    (u.passwordHash = none ∨ u.passwordHash = some "")) ∨
  (∃ u h, findUniqueByEmail store email = some u ∧ u.passwordHash = some h ∧
    bcryptCompare password h = false)

theorem authorize_none_of_rejectionCause (store : Store) (email password : String)
    (hc : rejectionCause store email password) :
    authorize store email password = none := by
  unfold authorize
  by_cases hg : (email == "" || password == "") = true
  · simp [hg]
  · simp only [hg, Bool.false_eq_true, if_false]
    rcases hc with hnone | ⟨u, hu, hph | hph⟩ | ⟨u, h, hu, hph, hcmp⟩
    · rw [hnone]
    · simp [hu, hph]
    · simp [hu, hph]
    · simp only [hu, hph]
      by_cases he : (h == "") = true
      · simp [he]
      · simp [he, hcmp]

/-- C3: any two calls of `authorize` rejected for any of the three causes —
no such user, user without a stored hash, wrong password — return identical
results, both `null`, so no rejection cause is distinguishable from another
at this layer. -/
theorem authorize_rejections_indistinguishable
    (s₁ s₂ : Store) (e₁ p₁ e₂ p₂ : String)
    (h₁ : rejectionCause s₁ e₁ p₁) (h₂ : rejectionCause s₂ e₂ p₂) :
    authorize s₁ e₁ p₁ = authorize s₂ e₂ p₂ ∧ authorize s₁ e₁ p₁ = none := by
  have k₁ := authorize_none_of_rejectionCause s₁ e₁ p₁ h₁
  have k₂ := authorize_none_of_rejectionCause s₂ e₂ p₂ h₂
  exact ⟨k₁.trans k₂.symm, k₁⟩

/-- A stored user with no password hash (e.g. a federated-only account). -/
def bobNoHash : User :=
  { id := "u7", email := "b@x.com", username := "bob",
    displayName := none, passwordHash := none }

/-- Witness for `authorize_rejections_indistinguishable`: a no-such-user
rejection against an empty store and a no-stored-hash rejection give the
same `null` outcome. -/
theorem authorize_rejections_witness :
    authorize [] "a@x.com" "pw" = authorize [bobNoHash] "b@x.com" "pw2" ∧
    authorize [] "a@x.com" "pw" = none :=
  authorize_rejections_indistinguishable [] [bobNoHash] "a@x.com" "pw" "b@x.com" "pw2"
    (Or.inl (by decide))
    (Or.inr (Or.inl ⟨bobNoHash, by decide, Or.inl rfl⟩))

/-! ### C5 — validation failures touch nothing -/

/-- C5: whenever email, username or password is missing (modelled as `""`) or
empty, the endpoint answers 400 `ValidationError` with the store unchanged
and an empty trace of storage operations — not even a read is performed. -/
theorem register_validation_error (store : Store) (req : RegisterRequest)
    (h : req.email = "" ∨ req.username = "" ∨ req.password = "") :
    POST store req = (.validationError "Mangler felter", store, []) ∧
    (POST store req).1.statusCode = 400 := by
  have hpost : POST store req = (.validationError "Mangler felter", store, []) := by
    unfold POST
    rcases h with h | h | h <;> simp [h]
  refine ⟨hpost, ?_⟩
  rw [hpost]
  rfl

/-- Witness for `register_validation_error`: a request with an empty password
against a one-row store leaves the store as it was. -/
theorem register_validation_error_witness :
    POST [bobNoHash] ⟨"a@x.com", "alice", "", none⟩ =
      (.validationError "Mangler felter", [bobNoHash], []) ∧
    (POST [bobNoHash] ⟨"a@x.com", "alice", "", none⟩).1.statusCode = 400 :=
  register_validation_error [bobNoHash] ⟨"a@x.com", "alice", "", none⟩
    (Or.inr (Or.inr rfl))

/-! ### C9 — client-side timeout handling -/

/-- C9: the registration fetch is wired to an abort controller fired after
`timeoutMs = 10000` milliseconds; when the fetch ends in the resulting
`AbortError`, the flow shows the timeout-specific message, resets `loading`
to `false`, and never attempts `signIn` — and for an error thrown under any
other name the flow shows the (different) generic network message. -/
theorem client_timeout_handling (signInRes : SignInResult) (n : String)
    (hn : n ≠ "AbortError") :
    timeoutMs = 10000 ∧
    onSubmit (.thrown "AbortError") signInRes =
      { error := "Tidsavbrudd – prøv igjen", loading := false,
        signInAttempted := false, navigatedTo := none } ∧
    (onSubmit (.thrown n) signInRes).error = "Nettverksfeil – sjekk tilkoblingen" ∧
    "Nettverksfeil – sjekk tilkoblingen" ≠ "Tidsavbrudd – prøv igjen" := by
  have hbeq : (n == "AbortError") = false := beq_eq_false_iff_ne.mpr hn
  refine ⟨rfl, rfl, ?_, by decide⟩
  unfold onSubmit
  simp [hbeq]

/-- Witness for `client_timeout_handling` with a generic `TypeError` as the
other thrown error. -/
theorem client_timeout_handling_witness :
    timeoutMs = 10000 ∧
    onSubmit (.thrown "AbortError") ⟨none⟩ =
      { error := "Tidsavbrudd – prøv igjen", loading := false,
        signInAttempted := false, navigatedTo := none } ∧
    (onSubmit (.thrown "TypeError") ⟨none⟩).error = "Nettverksfeil – sjekk tilkoblingen" ∧
    "Nettverksfeil – sjekk tilkoblingen" ≠ "Tidsavbrudd – prøv igjen" :=
  client_timeout_handling ⟨none⟩ "TypeError" (by decide)

/-! ### C2 — the `authorize` contract -/

/-- C2: `authorize` returns a non-null identity exactly when email and
password are both non-empty, a user with that email exists, that user has a
stored password hash, and the password verifies against it; and in that case
the returned identity is exactly `{id, name = displayName ?? username,
email}` of the found user — a value of `Identity`, which has no field for
the password hash or any other stored attribute. -/
theorem authorize_contract (store : Store) (email password : String) :
    ((authorize store email password).isSome = true ↔
      (email ≠ "" ∧ password ≠ "" ∧
        ∃ u, findUniqueByEmail store email = some u ∧
          ∃ h, u.passwordHash = some h ∧ bcryptCompare password h = true)) ∧
    (∀ ident, authorize store email password = some ident →
      ∃ u, findUniqueByEmail store email = some u ∧
        ident = { id := u.id, name := u.displayName.getD u.username,
                  email := u.email }) := by
  constructor
  · constructor
    · intro hsome
      unfold authorize at hsome
      by_cases hg : (email == "" || password == "") = true
      · rw [if_pos hg] at hsome
        exact absurd hsome (by simp)
      · rw [if_neg hg] at hsome
        rcases hu : findUniqueByEmail store email with _ | u
        · rw [hu] at hsome
          exact absurd hsome (by simp)
        · rw [hu] at hsome
          rcases hph : u.passwordHash with _ | h
          · simp [hph] at hsome
          · simp only [hph] at hsome
            by_cases he : (h == "") = true
            · simp [he] at hsome
            · by_cases hc : bcryptCompare password h = true
              · rcases Bool.or_eq_false_iff.mp (Bool.eq_false_iff.mpr hg) with ⟨h1, h2⟩
                exact ⟨beq_eq_false_iff_ne.mp h1, beq_eq_false_iff_ne.mp h2,
                  u, rfl, h, hph, hc⟩
              · simp [he, hc] at hsome
    · rintro ⟨he, hp, u, hu, h, hph, hc⟩
      unfold authorize
      have hg : (email == "" || password == "") = false := by
        rw [Bool.or_eq_false_iff]
        exact ⟨beq_eq_false_iff_ne.mpr he, beq_eq_false_iff_ne.mpr hp⟩
      rw [if_neg (by simp [hg]), hu]
      have hne : (h == "") = false := by
        refine beq_eq_false_iff_ne.mpr fun h0 => ?_
        subst h0
        rw [bcryptCompare_empty_hash] at hc
        exact Bool.false_ne_true hc
      simp [hph, hne, hc]
  · intro ident hident
    unfold authorize at hident
    by_cases hg : (email == "" || password == "") = true
    · rw [if_pos hg] at hident
      exact absurd hident (by simp)
    · rw [if_neg hg] at hident
      rcases hu : findUniqueByEmail store email with _ | u
      · rw [hu] at hident
        exact absurd hident (by simp)
      · rw [hu] at hident
        rcases hph : u.passwordHash with _ | h
        · simp [hph] at hident
        · simp only [hph] at hident
          by_cases he : (h == "") = true
          · simp [he] at hident
          · by_cases hc : bcryptCompare password h = true
            · refine ⟨u, rfl, ?_⟩
              simp [he, hc] at hident
              exact hident.symm
            · simp [he, hc] at hident

/-- A registered user row used by concrete witnesses. -/
def aliceRow : User :=
  { id := "u0", email := "a@x.com", username := "alice",
    displayName := none, passwordHash := some (bcryptHash "secret123" 12) }

/-- Witness for `authorize_contract`: the success conditions hold for
`aliceRow` and its password, so `authorize` returns a non-null identity. -/
theorem authorize_contract_witness :
    (authorize [aliceRow] "a@x.com" "secret123").isSome = true :=
  (authorize_contract [aliceRow] "a@x.com" "secret123").1.mpr
    ⟨by decide, by decide, aliceRow, by decide,
     bcryptHash "secret123" 12, rfl, bcryptCompare_roundtrip "secret123"⟩

/-! ### C4 — duplicate registration -/

/-- C4 counterexample: a request whose email (and username) collide with an
existing row but whose password is empty is answered with 400, not 409 —
the validation guard runs before the uniqueness check, so the conflict
answer is *not* returned regardless of the password value. -/
theorem register_conflict_cex :
    (POST [aliceRow] ⟨"a@x.com", "alice", "", none⟩).1.statusCode = 400 ∧
    (POST [aliceRow] ⟨"a@x.com", "alice", "", none⟩).1.statusCode ≠ 409 := by
  constructor
  · rfl
  · intro h
    simp [POST, RegisterResult.statusCode] at h

/-- C4 (amended): for every registration request whose email, username and
password are all non-empty and where some stored row already holds the same
email or the same username, the endpoint answers 409 `ConflictError`
regardless of which (non-empty) password was sent, and the store is
unchanged — registering twice with the same email leaves exactly one row. -/
theorem register_conflict (store : Store) (req : RegisterRequest)
    (he : req.email ≠ "") (hu : req.username ≠ "") (hp : req.password ≠ "")
    (hex : ∃ u ∈ store, u.email = req.email ∨ u.username = req.username) :
    (POST store req).1 = .conflictError "bruker finnes allerede" ∧
    (POST store req).1.statusCode = 409 ∧
    (POST store req).2.1 = store := by
  have hfind : (findByEmailOrUsername store req.email req.username).isSome = true := by
    unfold findByEmailOrUsername
    rw [List.find?_isSome]
    rcases hex with ⟨u, hmem, hcase | hcase⟩
    · exact ⟨u, hmem, by rw [hcase]; simp⟩
    · exact ⟨u, hmem, by rw [hcase]; simp⟩
  rcases hfound : findByEmailOrUsername store req.email req.username with _ | u
  · rw [hfound] at hfind
    exact absurd hfind (by simp)
  · have hg : (req.email == "" || req.username == "" || req.password == "") = false := by
      simp [beq_eq_false_iff_ne.mpr he, beq_eq_false_iff_ne.mpr hu,
            beq_eq_false_iff_ne.mpr hp]
    unfold POST
    rw [if_neg (by simp [hg]), hfound]
    exact ⟨rfl, rfl, rfl⟩

/-- Witness for `register_conflict`: a second registration with `aliceRow`'s
email (and a different password and username) is answered 409 and leaves the
single row in place. -/
theorem register_conflict_witness :
    (POST [aliceRow] ⟨"a@x.com", "alice2", "hunter2", none⟩).1 =
      .conflictError "bruker finnes allerede" ∧
    (POST [aliceRow] ⟨"a@x.com", "alice2", "hunter2", none⟩).1.statusCode = 409 ∧
    (POST [aliceRow] ⟨"a@x.com", "alice2", "hunter2", none⟩).2.1 = [aliceRow] :=
  register_conflict [aliceRow] ⟨"a@x.com", "alice2", "hunter2", none⟩
    (by decide) (by decide) (by decide)
    ⟨aliceRow, by decide, Or.inl rfl⟩

/-! ### C6 — uniqueness is only a pre-read, not an atomic constraint -/

/-- First of two racing registrations with the same email. -/
def raceReq1 : RegisterRequest :=
  ⟨"a@x.com", "alice", "secret123", none⟩

/-- Second racing registration: same email, different username/password. -/
def raceReq2 : RegisterRequest :=
  ⟨"a@x.com", "alice2", "hunter2", none⟩

/-- C6, evaluated at the failing interleaving: when both requests pass their
uniqueness pre-read against the same initial store before either inserts —
an interleaving nothing in the code excludes, since the `findFirst` and the
`create` are separate awaited storage calls — both are answered 201 and two
rows with the same email end up stored: the create step itself raises no
`ConflictError` and enforces nothing atomically. -/
theorem create_not_atomic_race :
    (interleavedRegister2 [] raceReq1 raceReq2).1.statusCode = 201 ∧
    (interleavedRegister2 [] raceReq1 raceReq2).2.1.statusCode = 201 ∧
    countEmail (interleavedRegister2 [] raceReq1 raceReq2).2.2 "a@x.com" = 2 := by
  refine ⟨rfl, rfl, ?_⟩
  decide

/-- Sequentially, the same second request *is* answered 409 by the pre-read:
the conflict detection exists only at the endpoint's read, not in the create. -/
theorem sequential_second_register_conflicts :
    (POST (POST [] raceReq1).2.1 raceReq2).1.statusCode = 409 := by
  decide

/-! ### Success-path helper lemmas shared by the end-to-end claims -/

theorem findUnique_after_insert (store : Store) (req : RegisterRequest)
    (hfresh : findByEmailOrUsername store req.email req.username = none) :
    findUniqueByEmail (store ++ [mkUser store req]) req.email =
      some (mkUser store req) := by
  unfold findUniqueByEmail
  rw [List.find?_append]
  have h1 : store.find? (fun u => u.email == req.email) = none := by
    rw [List.find?_eq_none]
    intro u hmem hbeq
    have hnot := List.find?_eq_none.mp hfresh u hmem
    exact hnot (by simp only [hbeq, Bool.true_or])
  rw [h1]
  simp [mkUser]

theorem post_success (store : Store) (req : RegisterRequest)
    (he : req.email ≠ "") (hu : req.username ≠ "") (hp : req.password ≠ "")
    (hfresh : findByEmailOrUsername store req.email req.username = none) :
    POST store req =
      (.created (freshId store) req.email req.username,
       store ++ [mkUser store req], [.findFirst, .create]) := by
  unfold POST
  have hg : (req.email == "" || req.username == "" || req.password == "") = false := by
    simp [beq_eq_false_iff_ne.mpr he, beq_eq_false_iff_ne.mpr hu,
          beq_eq_false_iff_ne.mpr hp]
  rw [if_neg (by simp [hg]), hfresh]

theorem authorize_after_insert (store : Store) (req : RegisterRequest)
    (he : req.email ≠ "") (hp : req.password ≠ "")
    (hfresh : findByEmailOrUsername store req.email req.username = none) :
    authorize (store ++ [mkUser store req]) req.email req.password =
      some { id := freshId store, name := req.displayName.getD req.username,
             email := req.email } := by
  unfold authorize
  have hg : (req.email == "" || req.password == "") = false := by
    simp [beq_eq_false_iff_ne.mpr he, beq_eq_false_iff_ne.mpr hp]
  rw [if_neg (by simp [hg]), findUnique_after_insert store req hfresh]
  have hne : (bcryptHash req.password 12 == "") = false :=
    beq_eq_false_iff_ne.mpr (bcryptHash_ne_empty req.password 12)
  simp [mkUser, hne, bcryptCompare_roundtrip]

/-! ### C1 — register, then sign in, then derive the session -/

/-- C1: for a valid registration request (all three credentials non-empty,
email and username not already stored), the endpoint answers 201 `created`
with the new user's id; `authorize` with the same email and password then
succeeds, returning exactly that id; and feeding the identity through the
`jwt` and then `session` callback yields a session whose `user.id` equals
the id the registration created. -/
theorem register_then_login (store : Store) (req : RegisterRequest)
    (t0 : Token) (s0 : Session)
    (he : req.email ≠ "") (hu : req.username ≠ "") (hp : req.password ≠ "")
    (hfresh : findByEmailOrUsername store req.email req.username = none) :
    (POST store req).1 = .created (freshId store) req.email req.username ∧
    (POST store req).1.statusCode = 201 ∧
    authorize (POST store req).2.1 req.email req.password =
      some { id := freshId store, name := req.displayName.getD req.username,
             email := req.email } ∧
    ((sessionCallback s0 (jwtCallback t0
        (authorize (POST store req).2.1 req.email req.password))).user.bind
      SessionUser.id) = some (freshId store) := by
  have hpost := post_success store req he hu hp hfresh
  have hauth : authorize (POST store req).2.1 req.email req.password =
      some { id := freshId store, name := req.displayName.getD req.username,
             email := req.email } := by
    rw [hpost]
    exact authorize_after_insert store req he hp hfresh
  refine ⟨by rw [hpost], by rw [hpost]; rfl, hauth, ?_⟩
  rw [hauth]
  have hfid : (freshId store == "") = false :=
    beq_eq_false_iff_ne.mpr (freshId_ne_empty store)
  simp [jwtCallback, sessionCallback, hfid]

/-- The concrete registration request of the spec's first scenario. -/
def regReqA : RegisterRequest :=
  ⟨"a@x.com", "alice", "secret123", some "Alice"⟩

/-- Witness for `register_then_login` on an empty store with the spec's
concrete scenario data. -/
theorem register_then_login_witness :
    (POST [] regReqA).1 = .created (freshId []) "a@x.com" "alice" ∧
    (POST [] regReqA).1.statusCode = 201 ∧
    authorize (POST [] regReqA).2.1 "a@x.com" "secret123" =
      some { id := freshId [], name := "Alice", email := "a@x.com" } ∧
    ((sessionCallback ⟨none, "2026-01-01"⟩ (jwtCallback ⟨none, []⟩
        (authorize (POST [] regReqA).2.1 "a@x.com" "secret123"))).user.bind
      SessionUser.id) = some (freshId []) :=
  register_then_login [] regReqA ⟨none, []⟩ ⟨none, "2026-01-01"⟩
    (by decide) (by decide) (by decide) rfl

/-! ### C10 — empty display name is kept, not replaced by the username -/

/-- The register page's form state: all four controlled inputs are strings,
initialised to `""`; the optional display-name input simply stays `""` when
left blank. -/
structure RegisterForm where
  email : String
  username : String
  displayName : String
  password : String
deriving DecidableEq, Repr

/-- The body the client submits: `JSON.stringify(form)` serialises every
field, so `displayName` always arrives as a string (possibly empty), never
absent. -/
def formToRequest (f : RegisterForm) : RegisterRequest :=
  { email := f.email, username := f.username, password := f.password,
    displayName := some f.displayName }

/-- C10: when the form's display-name field is left blank the client submits
`displayName = ""`, the endpoint stores it verbatim, and a successful
`authorize` then returns `name = ""` — not the username, because the
`displayName ?? username` fallback fires only when `displayName` is
null/undefined, which for a direct registration means a request whose
`displayName` is absent. -/
theorem register_empty_displayName (store : Store) (f : RegisterForm)
    (he : f.email ≠ "") (hu : f.username ≠ "") (hp : f.password ≠ "")
    (hd : f.displayName = "")
    (hfresh : findByEmailOrUsername store f.email f.username = none) :
    (mkUser store (formToRequest f)).displayName = some "" ∧
    authorize (POST store (formToRequest f)).2.1 f.email f.password =
      some { id := freshId store, name := "", email := f.email } ∧
    "" ≠ f.username ∧
    authorize (POST store ⟨f.email, f.username, f.password, none⟩).2.1
        f.email f.password =
      some { id := freshId store, name := f.username, email := f.email } := by
  refine ⟨by simp [mkUser, formToRequest, hd], ?_, fun h => hu h.symm, ?_⟩
  · have h1 := authorize_after_insert store (formToRequest f) he hp hfresh
    rw [post_success store (formToRequest f) he hu hp hfresh]
    simpa [formToRequest, hd] using h1
  · have h2 := authorize_after_insert store ⟨f.email, f.username, f.password, none⟩
      he hp hfresh
    rw [post_success store ⟨f.email, f.username, f.password, none⟩ he hu hp hfresh]
    simpa using h2

/-- Witness for `register_empty_displayName`: the form filled with a blank
display name. -/
theorem register_empty_displayName_witness :
    (mkUser [] (formToRequest ⟨"a@x.com", "alice", "", "secret123"⟩)).displayName =
      some "" ∧
    authorize (POST [] (formToRequest ⟨"a@x.com", "alice", "", "secret123"⟩)).2.1
        "a@x.com" "secret123" =
      some { id := freshId [], name := "", email := "a@x.com" } ∧
    "" ≠ "alice" ∧
    authorize (POST [] ⟨"a@x.com", "alice", "secret123", none⟩).2.1
        "a@x.com" "secret123" =
      some { id := freshId [], name := "alice", email := "a@x.com" } :=
  register_empty_displayName [] ⟨"a@x.com", "alice", "", "secret123"⟩
    (by decide) (by decide) (by decide) rfl rfl
